import Mathlib

/-!
Shallow embedding of the winsafe resource-guard and error-conversion layer.

Each wrapper in the repository forwards to an OS entry point and classifies
its raw return value (together with a side-channel `GetLastError` query where
relevant) into a typed result.  In this embedding the OS call itself is an
input: every wrapper becomes a pure function of the raw value the OS returned
and the last-error code the side channel would fetch.  Rust panics are
modelled by explicit outcome types where a panic branch exists in the source;
fallible calls return `Except`.
-/

set_option linter.unusedVariables false

namespace Winsafe

/-! ## Raw values and error codes

Raw handles are pointer-sized values; we model them as `Int`.  The null
pointer is `0`.  The Windows invalid-handle sentinel `INVALID_HANDLE_VALUE`
is `-1` (all bits set).  Error codes (`co::ERROR`) and COM status codes
(`co::HRESULT`) are modelled as `Nat`; only the identity of the distinguished
constants matters for the claims. -/

def INVALID_HANDLE_VALUE : Int := -1

/-- `co::ERROR::SUCCESS` (the `GetLastError` value meaning "no error"). -/
def ERROR_SUCCESS : Nat := 0

/-- `co::ERROR::NO_MORE_FILES` (end of a toolhelp enumeration). -/
def ERROR_NO_MORE_FILES : Nat := 18

/-- `co::HRESULT::S_OK`. -/
def S_OK : Nat := 0

/-- `co::HRESULT::S_FALSE`. -/
def S_FALSE : Nat := 1

/-- `SysResult<T>`: success payload or a `co::ERROR` code. -/
abbrev SysResult (α : Type) := Except Nat α

/-- `HrResult<T>`: success payload or a `co::HRESULT` status. -/
abbrev HrResult (α : Type) := Except Nat α

/-- Modelled from the spec: `crate::priv_funcs::ptr_as_opt` is not under
`src/`; per the data model a raw handle is "nullable" and the zero-sentinel
convention classifies a null return, so it maps a raw pointer to `none`
exactly when the pointer is null. -/
def ptr_as_opt (p : Int) : Option Int :=
  if p = 0 then none else some p

/-! ## Typed handles -/

/-- Handle to a window (`src/src/handles/hwnd.rs`). -/
structure HWND where
  ptr : Int
deriving DecidableEq, Repr

/-- The null window handle. -/
def HWND.NULL : HWND := ⟨0⟩

/-- Handle to a standard console device (`src/src/kernel/handles/hstd.rs`). -/
structure HSTD where
  ptr : Int
deriving DecidableEq, Repr

/-- Modelled from the spec: the `impl_handle!` macro body is not under
`src/`; the data model calls raw handles "nullable" with an invalid sentinel,
and `HSTD::INVALID` is the handle holding `INVALID_HANDLE_VALUE`. -/
def HSTD.INVALID : HSTD := ⟨INVALID_HANDLE_VALUE⟩

/-- Handle to a toolhelp process snapshot
(`src/src/kernel/handles/hprocesslist.rs`). -/
structure HPROCESSLIST where
  ptr : Int
deriving DecidableEq, Repr

/-- Handle to a GDI bitmap (`src/src/gdi/handles/hbitmap.rs`). -/
structure HBITMAP where
  ptr : Int
deriving DecidableEq, Repr

/-! ## Error-conversion helpers -/

/-- Modelled from the spec: `ole::privs::ok_to_hrresult` is not under `src/`;
per convention (b) of the error-conversion contract, the zero (`S_OK`) status
is success and anything else is a carried error payload. -/
def ok_to_hrresult (hr : Nat) : HrResult Unit :=
  if hr = S_OK then Except.ok () else Except.error hr

/-- Modelled from the spec: `ole::privs::okfalse_to_hrresult` is not under
`src/`.  Per convention (b) a zero or designated OK status is success; its
callers in `src/` (`IMediaControl::Run`, `Pause`, `StopWhenReady`) return
`HrResult<bool>`, distinguishing which of the two designated OK statuses of
the HRESULT convention was returned: `S_OK` (zero) carries `true`, `S_FALSE`
carries `false`, and anything else is a carried error payload. -/
def okfalse_to_hrresult (hr : Nat) : HrResult Bool :=
  if hr = S_OK then Except.ok true
  else if hr = S_FALSE then Except.ok false
  else Except.error hr

/-! ## Guards and acquisition wrappers -/

/-- A `SIZE` (width/height pair of `i32`, `src/src/gui/layout_arranger.rs`
and the user structs). -/
structure SIZE where
  cx : Int
  cy : Int
deriving DecidableEq, Repr

/-- Modelled from the spec: `guard::CloseHandleGuard<T: Handle>` is not under
`src/`; per the data model a Guard is a non-copyable wrapper owning exactly
one Typed Handle whose release operation is `CloseHandle`. -/
structure CloseHandleGuard (H : Type) where
  handle : H
deriving DecidableEq, Repr

/-- Modelled from the spec: `gdi::guard::DeleteObjectGuard<T>` is not under
`src/`; a Guard owning one GDI object whose release operation is
`DeleteObject`. -/
structure DeleteObjectGuard (H : Type) where
  handle : H
deriving DecidableEq, Repr

/-- Modelled from the spec: `kernel::privs::ptr_to_sysresult_handle` is not
under `src/`; per convention (a) of the error-conversion contract it
classifies a raw pointer by the zero sentinel, fetching the last-error code
on failure. -/
def ptr_to_sysresult_handle (p : Int) (lastError : Nat) : SysResult Int :=
  if p = 0 then Except.error lastError else Except.ok p

/-- `HSTD::GetStdHandle` (`src/src/kernel/handles/hstd.rs` lines 49-59):
matches the raw return against `HSTD::INVALID` only; any other value —
including null — is wrapped in a `CloseHandleGuard`. -/
def HSTD.GetStdHandle (std_handle : Nat)
    (raw : Int) (lastError : Nat) : SysResult (CloseHandleGuard HSTD) :=
  if (⟨raw⟩ : HSTD) = HSTD.INVALID then Except.error lastError
  else Except.ok ⟨⟨raw⟩⟩

/-- `HPROCESSLIST::CreateToolhelp32Snapshot`
(`src/src/kernel/handles/hprocesslist.rs` lines 169-180): null-checks the
raw return via `.as_mut()`; any non-null value — including
`INVALID_HANDLE_VALUE` — becomes an `HPROCESSLIST`. -/
def HPROCESSLIST.CreateToolhelp32Snapshot (flags : Nat)
    (th32ProcessId : Option Nat)
    (raw : Int) (lastError : Nat) : SysResult HPROCESSLIST :=
  match ptr_as_opt raw with
  | some p => Except.ok ⟨p⟩
  | none => Except.error lastError

/-- `HBITMAP::CreateBitmap` (`src/src/gdi/handles/hbitmap.rs` lines 27-40):
classifies the raw return with `ptr_to_sysresult_handle` (null sentinel) and
wraps the handle in a `DeleteObjectGuard`. -/
def HBITMAP.CreateBitmap (sz : SIZE) (num_planes bit_count : Nat)
    (bits : Int)
    (raw : Int) (lastError : Nat) : SysResult (DeleteObjectGuard HBITMAP) :=
  (ptr_to_sysresult_handle raw lastError).map (fun h => ⟨⟨h⟩⟩)

/-! ## C4: toolhelp enumeration step wrappers
(`src/src/kernel/handles/hprocesslist.rs`)

Each wrapper passes its entry buffer to the OS call and classifies the raw
return: the wrapper logic never reads the buffer, so each is a function of
the raw return and the fetched last-error code. -/

/-- `HPROCESSLIST::Heap32ListFirst` (hprocesslist.rs lines 189-199). -/
def HPROCESSLIST.Heap32ListFirst (self : HPROCESSLIST)
    (raw : Int) (lastError : Nat) : SysResult Bool :=
  if raw = 0 then
    if lastError = ERROR_NO_MORE_FILES then Except.ok false
    else Except.error lastError
  else Except.ok true

/-- `HPROCESSLIST::Heap32ListNext` (hprocesslist.rs lines 208-218). -/
def HPROCESSLIST.Heap32ListNext (self : HPROCESSLIST)
    (raw : Int) (lastError : Nat) : SysResult Bool :=
  if raw = 0 then
    if lastError = ERROR_NO_MORE_FILES then Except.ok false
    else Except.error lastError
  else Except.ok true

/-- `HPROCESSLIST::Module32First` (hprocesslist.rs lines 227-237). -/
def HPROCESSLIST.Module32First (self : HPROCESSLIST)
    (raw : Int) (lastError : Nat) : SysResult Bool :=
  if raw = 0 then
    if lastError = ERROR_NO_MORE_FILES then Except.ok false
    else Except.error lastError
  else Except.ok true

/-- `HPROCESSLIST::Module32Next` (hprocesslist.rs lines 246-256). -/
def HPROCESSLIST.Module32Next (self : HPROCESSLIST)
    (raw : Int) (lastError : Nat) : SysResult Bool :=
  if raw = 0 then
    if lastError = ERROR_NO_MORE_FILES then Except.ok false
    else Except.error lastError
  else Except.ok true

/-- `HPROCESSLIST::Process32First` (hprocesslist.rs lines 265-275). -/
def HPROCESSLIST.Process32First (self : HPROCESSLIST)
    (raw : Int) (lastError : Nat) : SysResult Bool :=
  if raw = 0 then
    if lastError = ERROR_NO_MORE_FILES then Except.ok false
    else Except.error lastError
  else Except.ok true

/-- `HPROCESSLIST::Process32Next` (hprocesslist.rs lines 284-294). -/
def HPROCESSLIST.Process32Next (self : HPROCESSLIST)
    (raw : Int) (lastError : Nat) : SysResult Bool :=
  if raw = 0 then
    if lastError = ERROR_NO_MORE_FILES then Except.ok false
    else Except.error lastError
  else Except.ok true

/-- `HPROCESSLIST::Thread32First` (hprocesslist.rs lines 303-313). -/
def HPROCESSLIST.Thread32First (self : HPROCESSLIST)
    (raw : Int) (lastError : Nat) : SysResult Bool :=
  if raw = 0 then
    if lastError = ERROR_NO_MORE_FILES then Except.ok false
    else Except.error lastError
  else Except.ok true

/-- `HPROCESSLIST::Thread32Next` (hprocesslist.rs lines 322-332). -/
def HPROCESSLIST.Thread32Next (self : HPROCESSLIST)
    (raw : Int) (lastError : Nat) : SysResult Bool :=
  if raw = 0 then
    if lastError = ERROR_NO_MORE_FILES then Except.ok false
    else Except.error lastError
  else Except.ok true

/-- The three-way contract claimed for a toolhelp step wrapper. -/
def ToolhelpStepContract (f : Int → Nat → SysResult Bool) : Prop :=
  ∀ raw lastError,
    (raw ≠ 0 → f raw lastError = Except.ok true) ∧
    (raw = 0 → lastError = ERROR_NO_MORE_FILES →
      f raw lastError = Except.ok false) ∧
    (raw = 0 → lastError ≠ ERROR_NO_MORE_FILES →
      f raw lastError = Except.error lastError)

theorem toolhelp_step_contract_of_body
    (f : Int → Nat → SysResult Bool)
    (hf : ∀ raw lastError, f raw lastError =
      if raw = 0 then
        if lastError = ERROR_NO_MORE_FILES then Except.ok false
        else Except.error lastError
      else Except.ok true) :
    ToolhelpStepContract f := by
  intro raw lastError
  refine ⟨fun h0 => ?_, fun h0 hE => ?_, fun h0 hE => ?_⟩
  · simp [hf, h0]
  · simp [hf, h0, hE]
  · simp [hf, h0, hE]

/-! ## C5: HWND wrappers with a benign-null case
(`src/src/handles/hwnd.rs`)

`GetParent`, `GetWindow`, `GetDlgItem` and `SetParent` all classify with
`ptr_as_opt` and, on null, distinguish `ERROR::SUCCESS` (a success payload
meaning "no such window") from a real error. -/

/-- `HWND::GetParent` (hwnd.rs lines 292-300). -/
def HWND.GetParent (self : HWND)
    (raw : Int) (lastError : Nat) : Except Nat (Option HWND) :=
  match ptr_as_opt raw with
  | some p => Except.ok (some ⟨p⟩)
  | none =>
    if lastError = ERROR_SUCCESS then Except.ok none
    else Except.error lastError

/-- `HWND::GetWindow` (hwnd.rs lines 317-325). -/
def HWND.GetWindow (self : HWND) (uCmd : Nat)
    (raw : Int) (lastError : Nat) : Except Nat (Option HWND) :=
  match ptr_as_opt raw with
  | some p => Except.ok (some ⟨p⟩)
  | none =>
    if lastError = ERROR_SUCCESS then Except.ok none
    else Except.error lastError

/-- `HWND::GetDlgItem` (hwnd.rs lines 236-244). -/
def HWND.GetDlgItem (self : HWND) (nIDDlgItem : Int)
    (raw : Int) (lastError : Nat) : Except Nat (Option HWND) :=
  match ptr_as_opt raw with
  | none =>
    if lastError = ERROR_SUCCESS then Except.ok none
    else Except.error lastError
  | some p => Except.ok (some ⟨p⟩)

/-- `HWND::SetParent` (hwnd.rs lines 688-698). -/
def HWND.SetParent (self : HWND) (hWndNewParent : HWND)
    (raw : Int) (lastError : Nat) : Except Nat (Option HWND) :=
  match ptr_as_opt raw with
  | some p => Except.ok (some ⟨p⟩)
  | none =>
    if lastError = ERROR_SUCCESS then Except.ok none
    else Except.error lastError

/-- The contract claimed for the benign-null window wrappers. -/
def BenignNullContract (f : Int → Nat → Except Nat (Option HWND)) : Prop :=
  ∀ raw lastError,
    (raw ≠ 0 → f raw lastError = Except.ok (some ⟨raw⟩)) ∧
    (raw = 0 → lastError = ERROR_SUCCESS → f raw lastError = Except.ok none) ∧
    (raw = 0 → lastError ≠ ERROR_SUCCESS →
      f raw lastError = Except.error lastError)

theorem benign_null_contract_of_body
    (f : Int → Nat → Except Nat (Option HWND))
    (hf : ∀ raw lastError, f raw lastError =
      match ptr_as_opt raw with
      | some p => Except.ok (some ⟨p⟩)
      | none =>
        if lastError = ERROR_SUCCESS then Except.ok none
        else Except.error lastError) :
    BenignNullContract f := by
  intro raw lastError
  refine ⟨fun h0 => ?_, fun h0 hE => ?_, fun h0 hE => ?_⟩
  · simp [hf, ptr_as_opt, h0]
  · simp [hf, ptr_as_opt, h0, hE]
  · simp [hf, ptr_as_opt, h0, hE]

/-! ## C6: boolean/zero-sentinel wrappers with no benign-zero case
(`src/src/handles/hwnd.rs`) -/

/-- `HWND::EndDialog` (hwnd.rs lines 110-115). -/
def HWND.EndDialog (self : HWND) (nResult : Int)
    (raw : Int) (lastError : Nat) : Except Nat Unit :=
  if raw = 0 then Except.error lastError else Except.ok ()

/-- `HWND::SetWindowText` (hwnd.rs lines 761-768). -/
def HWND.SetWindowText (self : HWND) (lpString : String)
    (raw : Int) (lastError : Nat) : Except Nat Unit :=
  if raw = 0 then Except.error lastError else Except.ok ()

/-- `HWND::PostMessage` (hwnd.rs lines 607-617). -/
def HWND.PostMessage (self : HWND) (msgId : Nat) (wparam : Nat) (lparam : Int)
    (raw : Int) (lastError : Nat) : Except Nat Unit :=
  if raw = 0 then Except.error lastError else Except.ok ()

/-- `HWND::SetWindowPos` (hwnd.rs lines 719-732). -/
def HWND.SetWindowPos (self : HWND) (x y : Int) (cx cy : Nat) (uFlags : Nat)
    (raw : Int) (lastError : Nat) : Except Nat Unit :=
  if raw = 0 then Except.error lastError else Except.ok ()

/-- The contract claimed for the zero-sentinel wrappers. -/
def ZeroSentinelContract (f : Int → Nat → Except Nat Unit) : Prop :=
  ∀ raw lastError,
    (f raw lastError = Except.ok () ↔ raw ≠ 0) ∧
    (raw = 0 → f raw lastError = Except.error lastError)

theorem zero_sentinel_contract_of_body
    (f : Int → Nat → Except Nat Unit)
    (hf : ∀ raw lastError, f raw lastError =
      if raw = 0 then Except.error lastError else Except.ok ()) :
    ZeroSentinelContract f := by
  intro raw lastError
  constructor
  · constructor
    · intro h h0
      rw [hf, if_pos h0] at h
      exact Except.noConfusion h
    · intro h0
      simp [hf, h0]
  · intro h0
    simp [hf, h0]

/-- Claim C4: for every toolhelp enumeration step wrapper (Heap32ListFirst,
Heap32ListNext, Module32First, Module32Next, Process32First, Process32Next,
Thread32First, Thread32Next), a nonzero raw return yields `Ok true`; a zero
raw return whose fetched last-error code is `NO_MORE_FILES` yields
`Ok false`; and a zero raw return with any other last-error code yields
`Err` carrying exactly that code. -/
theorem toolhelp_step_wrappers_contract (self : HPROCESSLIST) :
    ToolhelpStepContract (self.Heap32ListFirst) ∧
    ToolhelpStepContract (self.Heap32ListNext) ∧
    ToolhelpStepContract (self.Module32First) ∧
    ToolhelpStepContract (self.Module32Next) ∧
    ToolhelpStepContract (self.Process32First) ∧
    ToolhelpStepContract (self.Process32Next) ∧
    ToolhelpStepContract (self.Thread32First) ∧
    ToolhelpStepContract (self.Thread32Next) :=
  ⟨toolhelp_step_contract_of_body _ (fun _ _ => rfl),
   toolhelp_step_contract_of_body _ (fun _ _ => rfl),
   toolhelp_step_contract_of_body _ (fun _ _ => rfl),
   toolhelp_step_contract_of_body _ (fun _ _ => rfl),
   toolhelp_step_contract_of_body _ (fun _ _ => rfl),
   toolhelp_step_contract_of_body _ (fun _ _ => rfl),
   toolhelp_step_contract_of_body _ (fun _ _ => rfl),
   toolhelp_step_contract_of_body _ (fun _ _ => rfl)⟩

/-- Witness for claim C4: the three branches of the contract, each evaluated
at a concrete input through the claim theorem itself. -/
theorem toolhelp_step_wrappers_contract_witness :
    HPROCESSLIST.Heap32ListFirst ⟨1⟩ 7 0 = Except.ok true ∧
    HPROCESSLIST.Process32Next ⟨1⟩ 0 18 = Except.ok false ∧
    HPROCESSLIST.Thread32Next ⟨1⟩ 0 5 = Except.error 5 := by
  have h := toolhelp_step_wrappers_contract ⟨1⟩
  exact ⟨(h.1 7 0).1 (by decide),
    ((h.2.2.2.2.2.1 0 18).2.1 rfl rfl),
    ((h.2.2.2.2.2.2.2 0 5).2.2 rfl (by decide))⟩

/-- Claim C5: for every call to `HWND::GetParent`, `HWND::GetWindow`,
`HWND::GetDlgItem` or `HWND::SetParent`: a non-null raw return yields
`Ok(Some(handle))` with that same handle value; a null raw return whose
fetched last-error code is `SUCCESS` yields `Ok(None)`; and a null raw
return with any other last-error code yields `Err` carrying that code. -/
theorem hwnd_benign_null_wrappers_contract
    (self : HWND) (uCmd : Nat) (nIDDlgItem : Int) (hWndNewParent : HWND) :
    BenignNullContract (self.GetParent) ∧
    BenignNullContract (self.GetWindow uCmd) ∧
    BenignNullContract (self.GetDlgItem nIDDlgItem) ∧
    BenignNullContract (self.SetParent hWndNewParent) :=
  ⟨benign_null_contract_of_body _ (fun _ _ => rfl),
   benign_null_contract_of_body _ (fun _ _ => rfl),
   benign_null_contract_of_body _ (fun raw lastError => by
     cases h : ptr_as_opt raw <;> simp [HWND.GetDlgItem, h]),
   benign_null_contract_of_body _ (fun _ _ => rfl)⟩

/-- Witness for claim C5: the three branches of the contract, each evaluated
at a concrete input through the claim theorem itself. -/
theorem hwnd_benign_null_wrappers_contract_witness :
    HWND.GetParent ⟨2⟩ 9 0 = Except.ok (some ⟨9⟩) ∧
    HWND.GetDlgItem ⟨2⟩ 101 0 0 = Except.ok none ∧
    HWND.SetParent ⟨2⟩ ⟨3⟩ 0 5 = Except.error 5 := by
  have h := hwnd_benign_null_wrappers_contract ⟨2⟩ 4 101 ⟨3⟩
  exact ⟨(h.1 9 0).1 (by decide),
    ((h.2.2.1 0 0).2.1 rfl rfl),
    ((h.2.2.2 0 5).2.2 rfl (by decide))⟩

/-- Claim C6: for every wrapper of a boolean/zero-sentinel OS call with no
benign-zero case (`HWND::EndDialog`, `HWND::SetWindowText`,
`HWND::PostMessage`, `HWND::SetWindowPos`), the wrapper returns `Ok` exactly
when the raw return value is nonzero, and returns `Err` carrying the fetched
last-error code exactly when the raw return value is zero. -/
theorem hwnd_zero_sentinel_wrappers_contract
    (self : HWND) (nResult : Int) (lpString : String)
    (msgId : Nat) (wparam : Nat) (lparam : Int)
    (x y : Int) (cx cy : Nat) (uFlags : Nat) :
    ZeroSentinelContract (self.EndDialog nResult) ∧
    ZeroSentinelContract (self.SetWindowText lpString) ∧
    ZeroSentinelContract (self.PostMessage msgId wparam lparam) ∧
    ZeroSentinelContract (self.SetWindowPos x y cx cy uFlags) :=
  ⟨zero_sentinel_contract_of_body _ (fun _ _ => rfl),
   zero_sentinel_contract_of_body _ (fun _ _ => rfl),
   zero_sentinel_contract_of_body _ (fun _ _ => rfl),
   zero_sentinel_contract_of_body _ (fun _ _ => rfl)⟩

/-- Witness for claim C6: both branches of the contract, each evaluated at a
concrete input through the claim theorem itself. -/
theorem hwnd_zero_sentinel_wrappers_contract_witness :
    HWND.EndDialog ⟨2⟩ 0 1 0 = Except.ok () ∧
    HWND.SetWindowPos ⟨2⟩ 10 20 30 40 0 0 5 = Except.error 5 := by
  have h := hwnd_zero_sentinel_wrappers_contract ⟨2⟩ 0 "hi" 16 0 0 10 20 30 40 0
  exact ⟨(h.1 1 0).1.mpr (by decide), (h.2.2.2 0 5).2 rfl⟩

/-- Claim C2 counterexample: the claim says a null raw return (one of the
failure signals it names) makes the wrapper return a typed error and never
construct a Guard; but `HSTD::GetStdHandle` checks only the
`INVALID_HANDLE_VALUE` sentinel, so on a null raw return (last error 5) it
returns `Ok` with a live guard around the null handle instead of
`Err(5)`.  (`HPROCESSLIST::CreateToolhelp32Snapshot` likewise null-checks
only, so the `INVALID_HANDLE_VALUE` return becomes an `Ok` handle.) -/
theorem acquisition_reject_claim_counterexample :
    HSTD.GetStdHandle 0 0 5 = Except.ok ⟨⟨0⟩⟩ ∧
    HSTD.GetStdHandle 0 0 5 ≠ Except.error 5 ∧
    HPROCESSLIST.CreateToolhelp32Snapshot 2 none INVALID_HANDLE_VALUE 5 =
      Except.ok ⟨INVALID_HANDLE_VALUE⟩ :=
  ⟨rfl, fun h => Except.noConfusion h, rfl⟩

/-- Claim C2 (amended): each acquisition wrapper rejects exactly the one
sentinel its code checks, returning the fetched last-error code, and
otherwise returns a Guard/handle embedding exactly the raw value:
`HSTD::GetStdHandle` errors precisely on `INVALID_HANDLE_VALUE` (a null
return yields a guard); `HPROCESSLIST::CreateToolhelp32Snapshot` and
`HBITMAP::CreateBitmap` error precisely on a null return (an
`INVALID_HANDLE_VALUE` return yields a handle/guard). -/
theorem acquisition_sentinel_contract
    (std_handle : Nat) (flags : Nat) (th32ProcessId : Option Nat)
    (sz : SIZE) (num_planes bit_count : Nat) (bits : Int) :
    ∀ raw lastError,
      (HSTD.GetStdHandle std_handle raw lastError = Except.error lastError ↔
        raw = INVALID_HANDLE_VALUE) ∧
      (raw ≠ INVALID_HANDLE_VALUE →
        HSTD.GetStdHandle std_handle raw lastError = Except.ok ⟨⟨raw⟩⟩) ∧
      (HPROCESSLIST.CreateToolhelp32Snapshot flags th32ProcessId raw lastError
          = Except.error lastError ↔ raw = 0) ∧
      (raw ≠ 0 →
        HPROCESSLIST.CreateToolhelp32Snapshot flags th32ProcessId raw lastError
          = Except.ok ⟨raw⟩) ∧
      (HBITMAP.CreateBitmap sz num_planes bit_count bits raw lastError
          = Except.error lastError ↔ raw = 0) ∧
      (raw ≠ 0 →
        HBITMAP.CreateBitmap sz num_planes bit_count bits raw lastError
          = Except.ok ⟨⟨raw⟩⟩) := by
  intro raw lastError
  refine ⟨?_, ?_, ?_, ?_, ?_, ?_⟩
  · constructor
    · intro h
      by_contra hne
      rw [HSTD.GetStdHandle, if_neg (by simpa [HSTD.INVALID] using hne)] at h
      exact Except.noConfusion h
    · intro h
      simp [HSTD.GetStdHandle, h, HSTD.INVALID]
  · intro hne
    rw [HSTD.GetStdHandle, if_neg (by simpa [HSTD.INVALID] using hne)]
  · constructor
    · intro h
      by_contra hne
      simp [HPROCESSLIST.CreateToolhelp32Snapshot, ptr_as_opt, hne] at h
    · intro h
      simp [HPROCESSLIST.CreateToolhelp32Snapshot, ptr_as_opt, h]
  · intro hne
    simp [HPROCESSLIST.CreateToolhelp32Snapshot, ptr_as_opt, hne]
  · constructor
    · intro h
      by_contra hne
      simp [HBITMAP.CreateBitmap, ptr_to_sysresult_handle, hne,
        Except.map] at h
    · intro h
      simp [HBITMAP.CreateBitmap, ptr_to_sysresult_handle, h, Except.map]
  · intro hne
    simp [HBITMAP.CreateBitmap, ptr_to_sysresult_handle, hne, Except.map]

/-- Witness for claim C2 (amended): both branches for each wrapper,
evaluated at concrete inputs through the claim theorem itself. -/
theorem acquisition_sentinel_contract_witness :
    HSTD.GetStdHandle 0 INVALID_HANDLE_VALUE 5 = Except.error 5 ∧
    HSTD.GetStdHandle 0 7 5 = Except.ok ⟨⟨7⟩⟩ ∧
    HPROCESSLIST.CreateToolhelp32Snapshot 2 none 0 5 = Except.error 5 ∧
    HPROCESSLIST.CreateToolhelp32Snapshot 2 none 7 5 = Except.ok ⟨7⟩ ∧
    HBITMAP.CreateBitmap ⟨8, 8⟩ 1 32 0 0 5 = Except.error 5 ∧
    HBITMAP.CreateBitmap ⟨8, 8⟩ 1 32 0 7 5 = Except.ok ⟨⟨7⟩⟩ := by
  have h0 := acquisition_sentinel_contract 0 2 none ⟨8, 8⟩ 1 32 0
    INVALID_HANDLE_VALUE 5
  have h7 := acquisition_sentinel_contract 0 2 none ⟨8, 8⟩ 1 32 0 7 5
  have hz := acquisition_sentinel_contract 0 2 none ⟨8, 8⟩ 1 32 0 0 5
  exact ⟨h0.1.mpr rfl, h7.2.1 (by decide),
    (hz.2.2.1).mpr rfl, h7.2.2.2.1 (by decide),
    (hz.2.2.2.2.1).mpr rfl, h7.2.2.2.2.2 (by decide)⟩

/-! ## C3: COM status-code wrappers
(`src/src/dshow/com_interfaces/imediacontrol.rs`,
`src/src/shell/com_interfaces/itaskbarlist3.rs`)

Each method forwards its virtual-table call's HRESULT to a status
classifier; the HRESULT the call returned is the input here. -/

/-- `IMediaControl::Run` (imediacontrol.rs lines 127-132). -/
def IMediaControl.Run (hr : Nat) : HrResult Bool :=
  okfalse_to_hrresult hr

/-- `IMediaControl::Pause` (imediacontrol.rs lines 104-109). -/
def IMediaControl.Pause (hr : Nat) : HrResult Bool :=
  okfalse_to_hrresult hr

/-- `IMediaControl::Stop` (imediacontrol.rs lines 136-141). -/
def IMediaControl.Stop (hr : Nat) : HrResult Unit :=
  ok_to_hrresult hr

/-- `IMediaControl::StopWhenReady` (imediacontrol.rs lines 145-150). -/
def IMediaControl.StopWhenReady (hr : Nat) : HrResult Bool :=
  okfalse_to_hrresult hr

/-- `ITaskbarList3::RegisterTab` (itaskbarlist3.rs lines 68-75). -/
def ITaskbarList3.RegisterTab (hwnd_tab hwnd_mdi : HWND)
    (hr : Nat) : HrResult Unit :=
  ok_to_hrresult hr

/-- The contract of a wrapper built on `ok_to_hrresult`: success exactly on
the zero (`S_OK`) status, anything else a carried error. -/
def OkStatusContract (f : Nat → HrResult Unit) : Prop :=
  ∀ hr, (f hr = Except.ok () ↔ hr = S_OK) ∧
    (hr ≠ S_OK → f hr = Except.error hr)

/-- The contract of a wrapper built on `okfalse_to_hrresult`: success
exactly on the two designated OK statuses `S_OK` (carried as `true`) and
`S_FALSE` (carried as `false`), anything else a carried error. -/
def OkFalseStatusContract (f : Nat → HrResult Bool) : Prop :=
  ∀ hr, (f hr = Except.ok true ↔ hr = S_OK) ∧
    (f hr = Except.ok false ↔ hr = S_FALSE) ∧
    (hr ≠ S_OK → hr ≠ S_FALSE → f hr = Except.error hr)

theorem ok_status_contract_of_body (f : Nat → HrResult Unit)
    (hf : ∀ hr, f hr = ok_to_hrresult hr) : OkStatusContract f := by
  intro hr
  by_cases h : hr = S_OK <;> simp [hf, ok_to_hrresult, h]

theorem okfalse_status_contract_of_body (f : Nat → HrResult Bool)
    (hf : ∀ hr, f hr = okfalse_to_hrresult hr) : OkFalseStatusContract f := by
  intro hr
  rw [hf]
  unfold okfalse_to_hrresult
  by_cases h : hr = S_OK
  · subst h
    simp [S_OK, S_FALSE]
  · by_cases h' : hr = S_FALSE
    · subst h'
      simp [S_OK, S_FALSE]
    · rw [if_neg h, if_neg h']
      exact ⟨⟨fun hc => Except.noConfusion hc, fun hc => absurd hc h⟩,
             ⟨fun hc => Except.noConfusion hc, fun hc => absurd hc h'⟩,
             fun _ _ => rfl⟩

/-- Claim C3 counterexample: the claim says every listed wrapper succeeds
exactly on the zero status and carries any other status as an error; but
`IMediaControl::Pause` classifies through `okfalse_to_hrresult`, so on the
nonzero status `S_FALSE` (1) it returns the success payload `Ok(false)`
rather than `Err(1)`. -/
theorem com_status_claim_counterexample :
    IMediaControl.Pause S_FALSE = Except.ok false ∧
    IMediaControl.Pause S_FALSE ≠ Except.error S_FALSE ∧
    S_FALSE ≠ S_OK :=
  ⟨rfl, fun h => Except.noConfusion h, fun h => Nat.noConfusion h⟩

/-- Claim C3 (amended): the wrappers built on `ok_to_hrresult`
(`IMediaControl::Stop`, `ITaskbarList3::RegisterTab`) return success exactly
when the status code is the zero `S_OK` status, with any other status a
carried error; the wrappers returning a carried bool (`IMediaControl::Run`,
`Pause`, `StopWhenReady`) return success exactly on the two designated OK
statuses — `S_OK` carried as `true`, `S_FALSE` carried as `false` — with any
other status a carried error. -/
theorem com_status_wrappers_contract (hwnd_tab hwnd_mdi : HWND) :
    OkStatusContract IMediaControl.Stop ∧
    OkStatusContract (ITaskbarList3.RegisterTab hwnd_tab hwnd_mdi) ∧
    OkFalseStatusContract IMediaControl.Run ∧
    OkFalseStatusContract IMediaControl.Pause ∧
    OkFalseStatusContract IMediaControl.StopWhenReady :=
  ⟨ok_status_contract_of_body _ (fun _ => rfl),
   ok_status_contract_of_body _ (fun _ => rfl),
   okfalse_status_contract_of_body _ (fun _ => rfl),
   okfalse_status_contract_of_body _ (fun _ => rfl),
   okfalse_status_contract_of_body _ (fun _ => rfl)⟩

/-- Witness for claim C3 (amended): each contract branch evaluated at a
concrete status through the claim theorem itself. -/
theorem com_status_wrappers_contract_witness :
    IMediaControl.Stop 0 = Except.ok () ∧
    ITaskbarList3.RegisterTab ⟨2⟩ ⟨3⟩ 5 = Except.error 5 ∧
    IMediaControl.Run 0 = Except.ok true ∧
    IMediaControl.Pause 1 = Except.ok false ∧
    IMediaControl.StopWhenReady 5 = Except.error 5 := by
  have h := com_status_wrappers_contract ⟨2⟩ ⟨3⟩
  exact ⟨(h.1 0).1.mpr rfl, (h.2.1 5).2 (by decide),
    (h.2.2.1 0).1.mpr rfl, (h.2.2.2.1 1).2.1.mpr rfl,
    (h.2.2.2.2 5).2.2 (by decide) (by decide)⟩

/-! ## Guard teardown paths (C7) and guard lifetimes (C1)

A drop path is embedded as a total function producing a `DropOutcome`: the
list of release calls it issues and whether a panic/throw branch was taken.
A Rust construct that can panic (`unwrap`, explicit `panic!`-style macros)
would be embedded with `panicked := true` on the corresponding branch; the
teardown paths in the source contain no such construct, which the embedding
makes explicit. -/

/-- A release operation issued during teardown. -/
inductive ReleaseCall where
  | coUninitialize : ReleaseCall
  | closeHandle (h : Int) : ReleaseCall
  | deleteObject (h : Int) : ReleaseCall
  | removeWindowSubclass (subclassId : Nat) : ReleaseCall
deriving DecidableEq, Repr

/-- What one execution of a drop/teardown path did. -/
structure DropOutcome where
  releases : List ReleaseCall
  panicked : Bool
deriving DecidableEq, Repr

/-- `CoUninitializeGuard` (`src/src/ole/guard.rs` lines 7-9): owns the
informational `HRESULT` from `CoInitializeEx`. -/
structure CoUninitializeGuard where
  hr : Nat
deriving DecidableEq, Repr

/-- `impl Drop for CoUninitializeGuard` (`src/src/ole/guard.rs` lines
11-15): the body is the single infallible FFI call `CoUninitialize()`. -/
def CoUninitializeGuard.drop (g : CoUninitializeGuard) : DropOutcome :=
  { releases := [ReleaseCall.coUninitialize], panicked := false }

/-- Modelled from the spec: the `Drop` impl of `guard::CloseHandleGuard` is
not under `src/`; per the guard contract, destruction invokes exactly one
`CloseHandle` release call and swallows/ignores a failure from the release
call itself.  The OS's answer to the `CloseHandle` call is an input and is
discarded. -/
def CloseHandleGuard.drop (g : CloseHandleGuard HSTD)
    (closeResult : Except Nat Unit) : DropOutcome :=
  { releases := [ReleaseCall.closeHandle g.handle.ptr], panicked := false }

/-- Modelled from the spec: the `Drop` impl of `gdi::guard::DeleteObjectGuard`
is not under `src/`; destruction invokes exactly one `DeleteObject` release
call and swallows a failure from it. -/
def DeleteObjectGuard.drop (g : DeleteObjectGuard HBITMAP)
    (deleteResult : Except Nat Unit) : DropOutcome :=
  { releases := [ReleaseCall.deleteObject g.handle.ptr], panicked := false }

/-- `co::WM::NCDESTROY` (0x82). -/
def WM_NCDESTROY : Nat := 130

/-- Result of `MsgEvents::process_message`
(`src/src/gui/native_controls/native_control_base.rs`). -/
inductive ProcessResult where
  | handledWithRet (res : Int) : ProcessResult
  | handledWithoutRet : ProcessResult
  | notHandled : ProcessResult
deriving DecidableEq, Repr

/-- `NativeControlBase::subclass_proc`
(`src/src/gui/native_controls/native_control_base.rs` lines 127-151).
Inputs are the message, the two null checks on the round-tripped `self`
pointer and its stored `hwnd`, the event processing result, the OS's answer
to `RemoveWindowSubclass`, and the value `DefSubclassProc` would return.
On `WM_NCDESTROY` the teardown calls `RemoveWindowSubclass` and discards
its `Result` via `.ok()` — the match on `removeResult` below returns `()`
on both arms, exactly as `.ok()` drops the `Err` payload. -/
def subclass_proc (msg : Nat) (selfPtrNull : Bool) (selfHwndNull : Bool)
    (processMessage : ProcessResult) (removeResult : Except Unit Unit)
    (subclassId : Nat) (defSubclassRet : Int) : Int × DropOutcome :=
  let maybe_processed :=
    if !selfPtrNull && !selfHwndNull then processMessage
    else ProcessResult.notHandled
  let teardown :=
    if msg = WM_NCDESTROY then
      let discarded : Unit :=
        match removeResult with
        | Except.ok _ => ()
        | Except.error _ => ()
      { releases := [ReleaseCall.removeWindowSubclass subclassId],
        panicked := false }
    else { releases := [], panicked := false }
  let ret :=
    match maybe_processed with
    | ProcessResult.handledWithRet res => res
    | ProcessResult.handledWithoutRet => 0
    | ProcessResult.notHandled => defSubclassRet
  (ret, teardown)

/-- Claim C7: Guard destruction never panics or throws: every drop path
invokes its release call and discards any failure it reports — including a
failing `RemoveWindowSubclass` during `WM_NCDESTROY` teardown — with no
panic branch reachable during teardown.  The teardown outcome (and the
returned value) is moreover independent of whether the release call failed. -/
theorem guard_teardown_never_panics :
    (∀ g : CoUninitializeGuard,
      g.drop.panicked = false ∧
      g.drop.releases = [ReleaseCall.coUninitialize]) ∧
    (∀ (g : CloseHandleGuard HSTD) (r : Except Nat Unit),
      (g.drop r).panicked = false ∧
      (g.drop r).releases = [ReleaseCall.closeHandle g.handle.ptr] ∧
      g.drop r = g.drop (Except.ok ())) ∧
    (∀ (g : DeleteObjectGuard HBITMAP) (r : Except Nat Unit),
      (g.drop r).panicked = false ∧
      (g.drop r).releases = [ReleaseCall.deleteObject g.handle.ptr] ∧
      g.drop r = g.drop (Except.ok ())) ∧
    (∀ (selfPtrNull selfHwndNull : Bool) (pm : ProcessResult)
        (rr : Except Unit Unit) (sid : Nat) (defRet : Int),
      (subclass_proc WM_NCDESTROY selfPtrNull selfHwndNull pm rr sid
          defRet).2.panicked = false ∧
      (subclass_proc WM_NCDESTROY selfPtrNull selfHwndNull pm rr sid
          defRet).2.releases = [ReleaseCall.removeWindowSubclass sid] ∧
      subclass_proc WM_NCDESTROY selfPtrNull selfHwndNull pm rr sid defRet =
        subclass_proc WM_NCDESTROY selfPtrNull selfHwndNull pm
          (Except.ok ()) sid defRet) := by
  refine ⟨fun g => ⟨rfl, rfl⟩, fun g r => ⟨rfl, rfl, rfl⟩,
    fun g r => ⟨rfl, rfl, rfl⟩, fun a b pm rr sid defRet => ?_⟩
  refine ⟨?_, ?_, ?_⟩ <;>
    simp [subclass_proc, WM_NCDESTROY]

/-- Guard lifetime events as Rust's move-only ownership discipline exposes
them: a transfer of ownership, or the drop of the final owner. -/
inductive GuardEvent where
  | move : GuardEvent
  | drop : GuardEvent
deriving DecidableEq, Repr

/-- The release calls issued along a sequence of lifetime events, given the
release calls one drop of the guard issues: a move runs no code at all, a
drop runs the guard's `Drop` impl. -/
def lifetimeReleases (dropCalls : List ReleaseCall) :
    List GuardEvent → List ReleaseCall
  | [] => []
  | GuardEvent.move :: es => lifetimeReleases dropCalls es
  | GuardEvent.drop :: es => dropCalls ++ lifetimeReleases dropCalls es

/-- Modelled from the spec: the lifecycle of a Guard — "Transfer of
ownership (move) invalidates the source and activates the destination
exactly once" and destruction of the final owner triggers release.  A whole
lifetime is any number of moves followed by exactly one drop (the moved-from
sources are never dropped). -/
def RustLifetime (events : List GuardEvent) : Prop :=
  ∃ n, events = List.replicate n GuardEvent.move ++ [GuardEvent.drop]

theorem lifetimeReleases_replicate_move (d : List ReleaseCall) (n : Nat) :
    lifetimeReleases d
      (List.replicate n GuardEvent.move ++ [GuardEvent.drop]) = d := by
  induction n with
  | zero => simp [lifetimeReleases]
  | succ k ih => simpa [List.replicate_succ, lifetimeReleases] using ih

/-- Claim C1: for every Guard produced by a successful acquisition (a
`CoUninitializeGuard`, or the `CloseHandleGuard` returned by
`HSTD::GetStdHandle`), the paired release operation is invoked exactly once
over the guard's whole lifetime: a move invokes no release, and the single
release fires only at the final owner's drop. -/
theorem guard_release_exactly_once (events : List GuardEvent)
    (hlife : RustLifetime events) :
    (∀ g : CoUninitializeGuard,
      lifetimeReleases g.drop.releases events =
        [ReleaseCall.coUninitialize]) ∧
    (∀ (std_handle : Nat) (raw : Int) (lastError : Nat)
        (g : CloseHandleGuard HSTD),
      HSTD.GetStdHandle std_handle raw lastError = Except.ok g →
      ∀ closeResult,
        lifetimeReleases (g.drop closeResult).releases events =
          [ReleaseCall.closeHandle g.handle.ptr]) ∧
    (∀ (d : List ReleaseCall) (es : List GuardEvent),
      lifetimeReleases d (GuardEvent.move :: es) = lifetimeReleases d es) := by
  obtain ⟨n, hn⟩ := hlife
  subst hn
  refine ⟨fun g => ?_, fun sh raw le g hacq closeResult => ?_,
    fun d es => rfl⟩
  · simpa [CoUninitializeGuard.drop] using
      lifetimeReleases_replicate_move [ReleaseCall.coUninitialize] n
  · simpa [CloseHandleGuard.drop] using
      lifetimeReleases_replicate_move
        [ReleaseCall.closeHandle g.handle.ptr] n

/-- Witness for claim C1: a guard acquired from raw handle 7, moved twice
and then dropped, releases `CloseHandle(7)` exactly once; the claim theorem
is applied at that concrete lifetime. -/
theorem guard_release_exactly_once_witness :
    lifetimeReleases
      ((CloseHandleGuard.drop ⟨⟨7⟩⟩ (Except.error 5)).releases)
      [GuardEvent.move, GuardEvent.move, GuardEvent.drop] =
      [ReleaseCall.closeHandle 7] ∧
    lifetimeReleases
      ((CoUninitializeGuard.drop ⟨0⟩).releases)
      [GuardEvent.move, GuardEvent.move, GuardEvent.drop] =
      [ReleaseCall.coUninitialize] := by
  have h := guard_release_exactly_once
    [GuardEvent.move, GuardEvent.move, GuardEvent.drop] ⟨2, rfl⟩
  exact ⟨h.2.1 0 7 5 ⟨⟨7⟩⟩ rfl (Except.error 5), h.1 ⟨0⟩⟩

/-! ## C8: the process-wide subclass-ID counter
(`src/src/gui/native_controls/native_control_base.rs`) -/

/-- `usize` wrap-around modulus: the counter is a `usize` and unchecked
release-mode arithmetic wraps at `2^64`. -/
def USIZE_MOD : Nat := 2 ^ 64

/-- `static mut BASE_SUBCLASS_ID: usize = 0`
(native_control_base.rs line 13). -/
def BASE_SUBCLASS_ID_init : Nat := 0

/-- `NativeControlBase::install_subclass_if_needed`
(native_control_base.rs lines 111-125), projected onto its interaction with
the counter: when the control's subclass events are non-empty it
pre-increments `BASE_SUBCLASS_ID` and uses the incremented value as the
subclass ID passed to `SetWindowSubclass`; otherwise it touches nothing.
Returns the assigned ID (if any) and the new counter value. -/
def install_subclass_if_needed (subclassEventsEmpty : Bool)
    (baseSubclassId : Nat) : Option Nat × Nat :=
  if !subclassEventsEmpty then
    let subclass_id := (baseSubclassId + 1) % USIZE_MOD
    (some subclass_id, subclass_id)
  else
    (none, baseSubclassId)

/-- Runs a sequence of subclass installations (one entry per control, the
entry being that control's `subclass_events.is_empty()`) against the
counter, collecting the assigned subclass IDs in installation order. -/
def runInstalls : List Bool → Nat → List Nat × Nat
  | [], c => ([], c)
  | e :: es, c =>
    let step := install_subclass_if_needed e c
    let rest := runInstalls es step.2
    (step.1.toList ++ rest.1, rest.2)

theorem runInstalls_eq (es : List Bool) :
    ∀ c, c + es.count false < USIZE_MOD →
      runInstalls es c =
        (List.range' (c + 1) (es.count false), c + es.count false) := by
  induction es with
  | nil =>
    intro c h
    simp [runInstalls]
  | cons e es ih =>
    intro c h
    cases e
    · have hc : (false :: es).count false = es.count false + 1 := by
        simp
      rw [hc] at h
      have hmod : (c + 1) % USIZE_MOD = c + 1 :=
        Nat.mod_eq_of_lt (by omega)
      have hstep : install_subclass_if_needed false c =
          (some (c + 1), c + 1) := by
        simp [install_subclass_if_needed, hmod]
      have hrest := ih (c + 1) (by omega)
      simp only [runInstalls, hstep, hrest, hc]
      rw [List.range'_succ]
      simp only [Option.toList, List.cons_append, List.nil_append,
        Prod.mk.injEq]
      refine ⟨?_, by omega⟩
      simp
    · have hc : (true :: es).count false = es.count false := by
        simp
      rw [hc] at h
      have hstep : install_subclass_if_needed true c = (none, c) := by
        simp [install_subclass_if_needed]
      have hrest := ih c h
      simp only [runInstalls, hstep, hrest, hc]
      simp

/-- Claim C8: every subclass installation performed by
`install_subclass_if_needed` (taken whenever the control's subclass events
are non-empty) draws a strictly increasing value from the process-wide
`BASE_SUBCLASS_ID` counter, so no two subclass installations ever receive
the same subclass ID — for any installation sequence short enough that the
`usize` counter cannot wrap.  Starting from the static initializer `0`, the
assigned IDs are exactly `1, 2, …, k` in installation order. -/
theorem subclass_ids_strictly_increasing (es : List Bool)
    (hcount : es.count false < USIZE_MOD) :
    (runInstalls es BASE_SUBCLASS_ID_init).1 =
      List.range' 1 (es.count false) ∧
    ((runInstalls es BASE_SUBCLASS_ID_init).1).Pairwise (· < ·) ∧
    ((runInstalls es BASE_SUBCLASS_ID_init).1).Nodup := by
  have h : runInstalls es BASE_SUBCLASS_ID_init =
      (List.range' 1 (es.count false), es.count false) := by
    simpa [BASE_SUBCLASS_ID_init] using
      runInstalls_eq es 0 (by simpa using hcount)
  refine ⟨by rw [h], ?_, ?_⟩
  · rw [h]
    exact List.pairwise_lt_range' 1 (es.count false)
  · rw [h]
    exact List.nodup_range' 1 (es.count false)

/-- Witness for claim C8: three controls, the middle one with no subclass
events; the two installations receive the distinct, increasing IDs 1 and 2.
The claim theorem is applied at this concrete sequence. -/
theorem subclass_ids_strictly_increasing_witness :
    (runInstalls [false, true, false] BASE_SUBCLASS_ID_init).1 = [1, 2] ∧
    ((runInstalls [false, true, false] BASE_SUBCLASS_ID_init).1).Nodup := by
  have h := subclass_ids_strictly_increasing [false, true, false]
    (by norm_num [USIZE_MOD])
  refine ⟨?_, h.2.2⟩
  rw [h.1]
  rfl

/-! ## C9: the four toolhelp iterators
(`src/src/kernel/handles/hprocesslist.rs` lines 337-561)

All four iterators hold a snapshot handle, an entry buffer, and the
`first_pass`/`has_more` flags.  The OS enumeration is an input `env`: the
`k`-th OS invocation (`k = 0` is the First call, made while `first_pass`;
the rest are Next calls) either fails with an error code or reports whether
an entry was produced, together with the entry written into the buffer.
`osCalls` counts OS invocations, so an unchanged state means the underlying
First/Next entry point was not invoked. -/

/-- `HEAPLIST32` (entry buffer of `HeapIter`); fields default to zero as
`HEAPLIST32::default()` does. -/
structure HEAPLIST32 where
  th32ProcessID : Nat := 0
  th32HeapID : Nat := 0
  dwFlags : Nat := 0
deriving DecidableEq, Repr

/-- `MODULEENTRY32` (entry buffer of `ModuleIter`). -/
structure MODULEENTRY32 where
  th32ProcessID : Nat := 0
deriving DecidableEq, Repr

/-- `PROCESSENTRY32` (entry buffer of `ProcessIter`). -/
structure PROCESSENTRY32 where
  th32ProcessID : Nat := 0
  cntThreads : Nat := 0
deriving DecidableEq, Repr

/-- `THREADENTRY32` (entry buffer of `ThreadIter`). -/
structure THREADENTRY32 where
  th32ThreadID : Nat := 0
  th32OwnerProcessID : Nat := 0
deriving DecidableEq, Repr

/-- The shared state shape of `HeapIter`, `ModuleIter`, `ProcessIter` and
`ThreadIter`. -/
structure ToolhelpIterState (α : Type) where
  hpl : HPROCESSLIST
  entry : α
  first_pass : Bool
  has_more : Bool
  osCalls : Nat
deriving DecidableEq, Repr

/-- The iterators' `new`: default buffer, `first_pass` and `has_more` both
`true`. -/
def toolhelpIterNew (hpl : HPROCESSLIST) (entry0 : α) :
    ToolhelpIterState α :=
  ⟨hpl, entry0, true, true, 0⟩

/-- The shared `next` body of the four iterators (hprocesslist.rs lines
348-377, 405-434, 462-491, 519-548; the four bodies are textually identical
up to the entry type): bail out with `none` if `has_more` is unset; else
make the OS call (First on the first pass, Next after), and on `Err` record
exhaustion and yield the error, on `Ok` record whether more entries exist
and yield the entry or `none`. -/
def toolhelpIterNext (env : Nat → Except Nat (Bool × α))
    (s : ToolhelpIterState α) :
    Option (Except Nat α) × ToolhelpIterState α :=
  if !s.has_more then (none, s)
  else
    let has_more_res := env s.osCalls
    let s1 := { s with first_pass := false, osCalls := s.osCalls + 1 }
    match has_more_res with
    | Except.error e =>
      (some (Except.error e), { s1 with has_more := false })
    | Except.ok (has_more, entry) =>
      let s2 := { s1 with has_more := has_more, entry := entry }
      if has_more then (some (Except.ok entry), s2)
      else (none, s2)

/-- `HeapIter::next`. -/
def HeapIter.next (env : Nat → Except Nat (Bool × HEAPLIST32))
    (s : ToolhelpIterState HEAPLIST32) :
    Option (Except Nat HEAPLIST32) × ToolhelpIterState HEAPLIST32 :=
  toolhelpIterNext env s

/-- `ModuleIter::next`. -/
def ModuleIter.next (env : Nat → Except Nat (Bool × MODULEENTRY32))
    (s : ToolhelpIterState MODULEENTRY32) :
    Option (Except Nat MODULEENTRY32) × ToolhelpIterState MODULEENTRY32 :=
  toolhelpIterNext env s

/-- `ProcessIter::next`. -/
def ProcessIter.next (env : Nat → Except Nat (Bool × PROCESSENTRY32))
    (s : ToolhelpIterState PROCESSENTRY32) :
    Option (Except Nat PROCESSENTRY32) × ToolhelpIterState PROCESSENTRY32 :=
  toolhelpIterNext env s

/-- `ThreadIter::next`. -/
def ThreadIter.next (env : Nat → Except Nat (Bool × THREADENTRY32))
    (s : ToolhelpIterState THREADENTRY32) :
    Option (Except Nat THREADENTRY32) × ToolhelpIterState THREADENTRY32 :=
  toolhelpIterNext env s

/-- The state after `n` further `next` calls. -/
def toolhelpIterRun (env : Nat → Except Nat (Bool × α))
    (s : ToolhelpIterState α) : Nat → ToolhelpIterState α
  | 0 => s
  | n + 1 => (toolhelpIterNext env (toolhelpIterRun env s n)).2

theorem toolhelpIterNext_of_hasMore_false
    (env : Nat → Except Nat (Bool × α)) (s : ToolhelpIterState α)
    (h : s.has_more = false) : toolhelpIterNext env s = (none, s) := by
  simp [toolhelpIterNext, h]

theorem toolhelpIterNext_stop (env : Nat → Except Nat (Bool × α))
    (s : ToolhelpIterState α) (r : Option (Except Nat α))
    (s' : ToolhelpIterState α) (hnext : toolhelpIterNext env s = (r, s'))
    (hr : r = none ∨ ∃ e, r = some (Except.error e)) :
    s'.has_more = false := by
  rw [toolhelpIterNext] at hnext
  cases hm : s.has_more with
  | false =>
    rw [hm] at hnext
    simp only [Bool.not_false, if_true] at hnext
    obtain ⟨hr', hs'⟩ := Prod.mk.injEq .. ▸ hnext
    rw [← hs']
    exact hm
  | true =>
    rw [hm] at hnext
    simp only [Bool.not_true, Bool.false_eq_true, if_false] at hnext
    cases henv : env s.osCalls with
    | error e =>
      rw [henv] at hnext
      obtain ⟨hr', hs'⟩ := Prod.mk.injEq .. ▸ hnext
      rw [← hs']
    | ok p =>
      rw [henv] at hnext
      obtain ⟨more, entry⟩ := p
      cases more with
      | false =>
        simp only [if_false, Bool.false_eq_true] at hnext
        obtain ⟨hr', hs'⟩ := Prod.mk.injEq .. ▸ hnext
        rw [← hs']
      | true =>
        simp only [if_true] at hnext
        obtain ⟨hr', hs'⟩ := Prod.mk.injEq .. ▸ hnext
        rcases hr with hnone | ⟨e, herr⟩
        · rw [hnone] at hr'
          exact Option.noConfusion hr'
        · rw [herr] at hr'
          exact Except.noConfusion (Option.some.inj hr')

theorem toolhelpIterRun_fixed (env : Nat → Except Nat (Bool × α))
    (s' : ToolhelpIterState α) (h : s'.has_more = false) :
    ∀ n, toolhelpIterRun env s' n = s' := by
  intro n
  induction n with
  | zero => rfl
  | succ k ih =>
    simp [toolhelpIterRun, ih, toolhelpIterNext_of_hasMore_false env s' h]

/-- The fusedness property claimed of an iterator `next` body: once a call
returned `none` or `Some(Err(_))`, every later call returns `none`, leaves
the state untouched, and makes no further OS invocation (`osCalls` frozen). -/
def FusedIterator {α : Type}
    (next : (Nat → Except Nat (Bool × α)) → ToolhelpIterState α →
      Option (Except Nat α) × ToolhelpIterState α) : Prop :=
  ∀ env s r s', next env s = (r, s') →
    (r = none ∨ ∃ e, r = some (Except.error e)) →
    ∀ n : Nat,
      toolhelpIterRun env s' n = s' ∧
      next env (toolhelpIterRun env s' n) =
        (none, toolhelpIterRun env s' n) ∧
      (toolhelpIterRun env s' n).osCalls = s'.osCalls

theorem fused_toolhelpIterNext {α : Type} :
    FusedIterator (toolhelpIterNext (α := α)) := by
  intro env s r s' hnext hr n
  have hstop := toolhelpIterNext_stop env s r s' hnext hr
  have hfix := toolhelpIterRun_fixed env s' hstop n
  refine ⟨hfix, ?_, by rw [hfix]⟩
  rw [hfix]
  exact toolhelpIterNext_of_hasMore_false env s' hstop

/-- Claim C9: each of the four toolhelp iterators (`HeapIter`, `ModuleIter`,
`ProcessIter`, `ThreadIter`) is fused: once a call to `next` has returned
`None` (enumeration exhausted) or `Some(Err(_))` (an OS error), every
subsequent call returns `None`, leaves the iterator state unchanged, and
never invokes the underlying First/Next OS call again. -/
theorem toolhelp_iterators_fused :
    FusedIterator HeapIter.next ∧ FusedIterator ModuleIter.next ∧
    FusedIterator ProcessIter.next ∧ FusedIterator ThreadIter.next :=
  ⟨fused_toolhelpIterNext, fused_toolhelpIterNext,
   fused_toolhelpIterNext, fused_toolhelpIterNext⟩

/-- Witness for claim C9: a heap iterator whose very first OS call fails
with error 5 ends exhausted; the claim theorem applied at that concrete
state shows the third later call still returns `none` with one total OS
call made. -/
theorem toolhelp_iterators_fused_witness :
    HeapIter.next (fun _ => Except.error 5)
        ⟨⟨1⟩, {}, false, false, 1⟩ =
      (none, ⟨⟨1⟩, {}, false, false, 1⟩) ∧
    (toolhelpIterRun (fun _ => Except.error 5)
        (⟨⟨1⟩, {}, false, false, 1⟩ : ToolhelpIterState HEAPLIST32)
        3).osCalls = 1 := by
  have h := toolhelp_iterators_fused.1 (fun _ => Except.error 5)
    (toolhelpIterNew ⟨1⟩ {}) (some (Except.error 5))
    ⟨⟨1⟩, {}, false, false, 1⟩ rfl (Or.inr ⟨5, rfl⟩) 3
  have h0 := toolhelp_iterators_fused.1 (fun _ => Except.error 5)
    (toolhelpIterNew ⟨1⟩ {}) (some (Except.error 5))
    ⟨⟨1⟩, {}, false, false, 1⟩ rfl (Or.inr ⟨5, rfl⟩) 0
  exact ⟨h0.2.1, h.2.2⟩

/-! ## C10: `LayoutArranger` (`src/src/gui/layout_arranger.rs`) -/

/-- A `POINT` of `i32` coordinates. -/
structure POINT where
  x : Int
  y : Int
deriving DecidableEq, Repr

/-- A `RECT` of `i32` coordinates. -/
structure RECT where
  left : Int
  top : Int
  right : Int
  bottom : Int
deriving DecidableEq, Repr

/-- `gui::Horz` (layout_arranger.rs lines 17-26). -/
inductive Horz where
  | none : Horz
  | repos : Horz
  | resize : Horz
deriving DecidableEq, Repr

/-- `gui::Vert` (layout_arranger.rs lines 33-42). -/
inductive Vert where
  | none : Vert
  | repos : Vert
  | resize : Vert
deriving DecidableEq, Repr

/-- `ChildInfo` (layout_arranger.rs lines 44-49). -/
structure ChildInfo where
  hchild : HWND
  rc_orig : RECT
  horz : Horz
  vert : Vert
deriving DecidableEq, Repr

/-- The fields of `LayoutArranger`'s pinned `Obj` (layout_arranger.rs lines
51-55). -/
structure LayoutArrangerState where
  ctrls : List ChildInfo
  sz_parent_orig : SIZE
deriving DecidableEq, Repr

/-- `LayoutArranger::new` (layout_arranger.rs lines 64-74): empty control
list, default (zero) original parent size. -/
def LayoutArranger.new : LayoutArrangerState :=
  { ctrls := [], sz_parent_orig := ⟨0, 0⟩ }

/-- Result of a Rust function that may take a reachable panic branch. -/
inductive RustOutcome (α : Type) where
  | panicked (msg : String) : RustOutcome α
  | ret (val : α) : RustOutcome α
deriving DecidableEq, Repr

/-- `LayoutArranger::add_child` (layout_arranger.rs lines 78-108).  The
OS queries (`hparent.GetClientRect()`, `hchild.GetWindowRect()`,
`hparent.ScreenToClientRc(..)`) are inputs.  The first-control branch saves
the original parent size before the child-rect queries run, so a failure of
those propagates with the size already written, exactly as the `?`
operators order the effects. -/
def LayoutArranger.add_child (st : LayoutArrangerState)
    (hparent hchild : HWND) (horz : Horz) (vert : Vert)
    (getClientRect : SysResult RECT)
    (getWindowRect : SysResult RECT)
    (screenToClientRc : RECT → SysResult RECT) :
    RustOutcome (SysResult Unit × LayoutArrangerState) :=
  if hparent = HWND.NULL ∨ hchild = HWND.NULL then
    RustOutcome.panicked
      "Cannot add resizer entries before window/control creation."
  else if horz = Horz.none ∧ vert = Vert.none then
    RustOutcome.ret (Except.ok (), st)
  else
    match
      (if st.ctrls.isEmpty then
        match getClientRect with
        | Except.error e => Except.error e
        | Except.ok rc_parent =>
          Except.ok { st with
            sz_parent_orig := ⟨rc_parent.right, rc_parent.bottom⟩ }
      else Except.ok st : SysResult LayoutArrangerState)
    with
    | Except.error e => RustOutcome.ret (Except.error e, st)
    | Except.ok st1 =>
      match getWindowRect with
      | Except.error e => RustOutcome.ret (Except.error e, st1)
      | Except.ok rc_win =>
        match screenToClientRc rc_win with
        | Except.error e => RustOutcome.ret (Except.error e, st1)
        | Except.ok rc_orig =>
          RustOutcome.ret (Except.ok (),
            { st1 with
              ctrls := st1.ctrls ++ [⟨hchild, rc_orig, horz, vert⟩] })

/-- `co::SIZE_R::MINIMIZED`. -/
def SIZE_R_MINIMIZED : Nat := 1

/-- The `wm::Size` message parameter (request kind and new client area). -/
structure WmSize where
  request : Nat
  client_area : SIZE
deriving DecidableEq, Repr

/-- The flags of one `DeferWindowPos` call: `NOZORDER` is always set;
`NOSIZE`/`NOMOVE` per the both-repos/both-resize cases. -/
structure SwpFlags where
  nosize : Bool
  nomove : Bool
deriving DecidableEq, Repr

/-- One `DeferWindowPos` command issued by `rearrange`. -/
structure DeferCmd where
  hchild : HWND
  pos : POINT
  sz : SIZE
  uflags : SwpFlags
deriving DecidableEq, Repr

/-- `LayoutArranger::rearrange` (layout_arranger.rs lines 112-159),
projected onto the `DeferWindowPos` commands it issues (a failing
`BeginDeferWindowPos`/`DeferWindowPos` only cuts this list short; the
stored state is never written by `rearrange`). -/
def LayoutArranger.rearrange_cmds (st : LayoutArrangerState) (p : WmSize) :
    List DeferCmd :=
  if st.ctrls.isEmpty ∨ p.request = SIZE_R_MINIMIZED then []
  else
    st.ctrls.map (fun ctrl =>
      { hchild := ctrl.hchild
        pos := ⟨(match ctrl.horz with
            | Horz.repos =>
              p.client_area.cx - st.sz_parent_orig.cx + ctrl.rc_orig.left
            | _ => ctrl.rc_orig.left),
          (match ctrl.vert with
            | Vert.repos =>
              p.client_area.cy - st.sz_parent_orig.cy + ctrl.rc_orig.top
            | _ => ctrl.rc_orig.top)⟩
        sz := ⟨(match ctrl.horz with
            | Horz.resize =>
              p.client_area.cx - st.sz_parent_orig.cx +
                ctrl.rc_orig.right - ctrl.rc_orig.left
            | _ => ctrl.rc_orig.right - ctrl.rc_orig.left),
          (match ctrl.vert with
            | Vert.resize =>
              p.client_area.cy - st.sz_parent_orig.cy +
                ctrl.rc_orig.bottom - ctrl.rc_orig.top
            | _ => ctrl.rc_orig.bottom - ctrl.rc_orig.top)⟩
        uflags :=
          { nosize := ctrl.horz == Horz.repos && ctrl.vert == Vert.repos
            nomove :=
              ctrl.horz == Horz.resize && ctrl.vert == Vert.resize } })

/-- Claim C10: `add_child` with `horz = Horz::None` and `vert = Vert::None`
(and non-null parent and child handles) returns `Ok(())` with the arranger
state unchanged — no control-list entry is added and the stored original
parent size is not written — and a control absent from the list is never
the target of any command a later `rearrange` issues. -/
theorem add_child_none_none_noop (st : LayoutArrangerState)
    (hparent hchild : HWND)
    (hp : hparent ≠ HWND.NULL) (hc : hchild ≠ HWND.NULL)
    (getClientRect getWindowRect : SysResult RECT)
    (screenToClientRc : RECT → SysResult RECT) :
    LayoutArranger.add_child st hparent hchild Horz.none Vert.none
        getClientRect getWindowRect screenToClientRc =
      RustOutcome.ret (Except.ok (), st) ∧
    (hchild ∉ st.ctrls.map (fun c => c.hchild) →
      ∀ p : WmSize, ∀ cmd ∈ LayoutArranger.rearrange_cmds st p,
        cmd.hchild ≠ hchild) := by
  constructor
  · rw [LayoutArranger.add_child.eq_def]
    rw [if_neg (by simp [hp, hc])]
    rw [if_pos ⟨rfl, rfl⟩]
  · intro hnotin p cmd hcmd heq
    rw [LayoutArranger.rearrange_cmds] at hcmd
    split at hcmd
    · simp at hcmd
    · simp only [List.mem_map] at hcmd
      obtain ⟨ctrl, hmem, hcm⟩ := hcmd
      apply hnotin
      rw [List.mem_map]
      refine ⟨ctrl, hmem, ?_⟩
      rw [← hcm] at heq
      exact heq

/-- Witness for claim C10: adding a (None, None) child to a fresh arranger
with concrete non-null handles and succeeding OS queries returns `Ok(())`
and leaves the state exactly `LayoutArranger::new`; the claim theorem is
applied at these inputs. -/
theorem add_child_none_none_noop_witness :
    LayoutArranger.add_child LayoutArranger.new ⟨1⟩ ⟨2⟩ Horz.none Vert.none
        (Except.ok ⟨0, 0, 100, 80⟩) (Except.ok ⟨5, 5, 30, 20⟩)
        (fun rc => Except.ok rc) =
      RustOutcome.ret (Except.ok (), LayoutArranger.new) :=
  (add_child_none_none_noop LayoutArranger.new ⟨1⟩ ⟨2⟩
    (by decide) (by decide) _ _ _).1

end Winsafe
